import Mathlib

/-!
Verification development for the steam-friend-adder repository
(`steam_friend_adder.py`).  The Python source is shallowly embedded:
pure string manipulation is modelled over `String.data` (`List Char`),
the HTTP transport is an explicit `HttpResult` argument, the
single-thread real-time behaviour of the rate limiter is modelled as a
step function on an explicit state carrying a clock, and the batch
loops are folds over the input lines.
-/

/- ## Python string primitives

`pyStrip` models Python `str.strip()` (leading/trailing whitespace
removed; the common ASCII whitespace characters), `pyIsDigits` models
`str.isdigit()` on ASCII digits, `pyLen` models `len`, `pyStartsWith`
models `str.startswith`, and `pyContainsSub` models the Python
substring test `needle in hay`. -/

def pyStrip (s : String) : String :=
  ⟨((s.data.dropWhile Char.isWhitespace).reverse.dropWhile Char.isWhitespace).reverse⟩

def pyIsDigits (s : String) : Bool := s.data.all Char.isDigit

def pyLen (s : String) : Nat := s.data.length

def pyStartsWith (s pre : String) : Bool := pre.data.isPrefixOf s.data

def pyContainsSub (hay needle : String) : Bool :=
  (List.range (hay.data.length + 1)).any
    (fun i => needle.data.isPrefixOf (hay.data.drop i))

/- ## Transport model

A network lookup either returns an HTTP response with a status code and
a (pre-parsed) body, times out, raises a `requests` exception, or
raises some other exception.  This mirrors exactly the cases the Python
`try`/`except` blocks distinguish. -/

inductive HttpResult (β : Type) : Type where
  | response (status : Nat) (body : β)
  | timeout
  | reqError (detail : String)
  | otherError (detail : String)
deriving DecidableEq

/-- Body shape of the GetPlayerSummaries response as the code inspects
it: either the nested `response.players` structure is present with `n`
players, or it is absent. -/
inductive SummaryBody : Type where
  | players (n : Nat)
  | malformed
deriving DecidableEq

/-- Body shape of the GetFriendList response as the code inspects it:
either the nested `friendslist.friends` structure is present (the code
then extracts the `steamid` of each entry, modelled as the id list), or
it is absent. -/
inductive FriendsBody : Type where
  | friends (ids : List String)
  | malformed
deriving DecidableEq

/- ## IdentityValidator: `validate_steam_id` -/

/-- The pure format check at the top of `validate_steam_id` (applied to
the already-stripped id): empty, non-numeric, or wrong length, in that
order; `none` when the format is accepted. -/
def validateFormatMsg (id : String) : Option String :=
  if id.data.isEmpty then some "Empty Steam ID"
  else if !(pyIsDigits id) then some "Steam ID must be numeric"
  else if pyLen id ≠ 17 then
    some ("Steam ID must be 17 digits (got " ++ toString (pyLen id) ++ ")")
  else none

/-- Classification of the player-summaries lookup outcome, mirroring
the status-code cascade and body inspection in `validate_steam_id`
(403, then 429, then any other non-200, then the 200 body). -/
def classifyLookup : HttpResult SummaryBody → Bool × String
  | .response status body =>
    if status = 403 then (false, "Invalid API key or insufficient permissions")
    else if status = 429 then (false, "Rate limited by Steam API")
    else if status ≠ 200 then
      (false, "API error (status code: " ++ toString status ++ ")")
    else
      match body with
      | .players n =>
        if 0 < n then (true, "Valid") else (false, "Steam ID not found")
      | .malformed => (false, "Unexpected API response format")
  | .timeout => (false, "Request timeout")
  | .reqError e => (false, "Network error: " ++ e)
  | .otherError e => (false, "Validation error: " ++ e)

/-- `validate_steam_id`.  The first component is the `(is_valid,
message)` pair the Python function returns; the second component
records the id queried over the network (`none` when the format check
short-circuits before any rate-limit admission or network call). -/
def validate_steam_id (steam_id : String) (lookup : HttpResult SummaryBody) :
    (Bool × String) × Option String :=
  let id := pyStrip steam_id
  match validateFormatMsg id with
  | some msg => ((false, msg), none)
  | none => (classifyLookup lookup, some id)

/-- `send_friend_request`: validates the target id; every validation
failure is propagated with the "Validation failed: " prefix; the
actual friend-request action is a stub that always succeeds. -/
def send_friend_request (target : String) (lookup : HttpResult SummaryBody) :
    Bool × String :=
  let v := (validate_steam_id target lookup).1
  if v.1 then (true, "Steam ID validated and ready for friend request")
  else (false, "Validation failed: " ++ v.2)

/- ## RelationshipFetcher: `get_friend_list` -/

/-- `get_friend_list`: returns `(success, friend_ids, error_message)`,
mirroring the status cascade 401, 403, 429, other non-200, then the
200 body. -/
def get_friend_list (lookup : HttpResult FriendsBody) :
    Bool × List String × String :=
  match lookup with
  | .response status body =>
    if status = 401 then (false, [], "Invalid API key")
    else if status = 403 then (false, [], "Friend list is private or user not found")
    else if status = 429 then (false, [], "Rate limited by Steam API")
    else if status ≠ 200 then
      (false, [], "API error (status code: " ++ toString status ++ ")")
    else
      match body with
      | .friends ids => (true, ids, "")
      | .malformed => (false, [], "No friends found or unexpected response format")
  | .timeout => (false, [], "Request timeout")
  | .reqError e => (false, [], "Network error: " ++ e)
  | .otherError e => (false, [], "Error retrieving friend list: " ++ e)

/- ## CandidateSelector: the list comprehension in `get_mutual_friends` -/

/-- The candidate computation of `get_mutual_friends`:
`[fid for fid in their_friends if fid not in your_friends_set and fid != self.steam_id]`. -/
def get_mutual_friends_candidates (self_id : String)
    (your_friends their_friends : List String) : List String :=
  their_friends.filter (fun fid => !(your_friends.contains fid) && fid != self_id)

/-- Candidate selection as the specification words it: the elements of
the target list that are not members of the self list and not equal to
`self_id`. -/
def specCandidates (self_id : String) (selfL targetL : List String) : List String :=
  targetL.filter (fun id => decide (id ∉ selfL ∧ id ≠ self_id))

/- ## BatchProcessor: counters and the per-item state machine -/

structure Counters where
  total : Nat
  success : Nat
  failed : Nat
  invalid : Nat
  skipped : Nat
deriving DecidableEq

def Counters.zero : Counters := ⟨0, 0, 0, 0, 0⟩

/-- Outcome classification shared by both batch loops: success counts
as `success`; otherwise the message is tested for the substring
"Validation failed" (`invalid`), falling through to `failed`. -/
def classifyItem (c : Counters) (r : Bool × String) : Counters :=
  if r.1 then { c with success := c.success + 1 }
  else if pyContainsSub r.2 "Validation failed" then
    { c with invalid := c.invalid + 1 }
  else { c with failed := c.failed + 1 }

/-- One iteration of the `process_steam_ids_file` loop: strip the raw
line, skip blank and `#`-comment lines, otherwise bump `total` and
classify the `send_friend_request` outcome.  `oracle` gives the
transport result of the lookup performed for each id. -/
def processLine (oracle : String → HttpResult SummaryBody)
    (c : Counters) (line : String) : Counters :=
  let steam_id := pyStrip line
  if steam_id.data.isEmpty || pyStartsWith steam_id "#" then
    { c with skipped := c.skipped + 1 }
  else
    classifyItem { c with total := c.total + 1 }
      (send_friend_request steam_id (oracle steam_id))

def processLines (oracle : String → HttpResult SummaryBody)
    (ls : List String) : Counters :=
  ls.foldl (processLine oracle) Counters.zero

/-- One iteration of the `add_mutual_friends` loop over the candidate
ids: no stripping and no skipping, every id bumps `total` and the
`send_friend_request` outcome is classified. -/
def addFriendStep (oracle : String → HttpResult SummaryBody)
    (c : Counters) (fid : String) : Counters :=
  classifyItem { c with total := c.total + 1 }
    (send_friend_request fid (oracle fid))

def addFriendsLoop (oracle : String → HttpResult SummaryBody)
    (ids : List String) : Counters :=
  ids.foldl (addFriendStep oracle) Counters.zero

/-- Result of a batch run: the counter dictionary when it was created,
and the `error` field when one was set.  `counters = none` models the
early `return {'error': 'File not found'}` dictionary that carries no
counter keys at all. -/
structure RunResult where
  counters : Option Counters
  error : Option String
deriving DecidableEq

/-- The input source of `process_steam_ids_file` as the `try`/`except`
structure distinguishes it: the file does not exist; `open`/`readlines`
raises before any line is processed; all lines are read and processed;
or a fatal exception is raised inside the loop after the lines `ls`
have been processed. -/
inductive FileSource : Type where
  | missing
  | readError (msg : String)
  | lines (ls : List String)
  | linesThenError (ls : List String) (msg : String)

/-- `process_steam_ids_file`: the missing-file early return carries only
an error; a read error is caught, leaving the freshly-created zero
counters plus the error field; an in-loop fatal error is caught,
leaving the counters accumulated so far plus the error field. -/
def process_steam_ids_file (src : FileSource)
    (oracle : String → HttpResult SummaryBody) : RunResult :=
  match src with
  | .missing => ⟨none, some "File not found"⟩
  | .readError msg => ⟨some Counters.zero, some msg⟩
  | .lines ls => ⟨some (processLines oracle ls), none⟩
  | .linesThenError ls msg => ⟨some (processLines oracle ls), some msg⟩

/-- `add_mutual_friends`: validate the target id, fetch both friend
lists, compute the candidates, and either return the zero-counter
success result (empty candidate list) or run the add loop.
`targetLookup` is the transport result of the target validation,
`selfListResp`/`targetListResp` those of the two friend-list fetches,
and `oracle` serves the per-candidate validation lookups. -/
def add_mutual_friends (self_id target_id : String)
    (targetLookup : HttpResult SummaryBody)
    (selfListResp targetListResp : HttpResult FriendsBody)
    (oracle : String → HttpResult SummaryBody) : RunResult :=
  let v := (validate_steam_id target_id targetLookup).1
  if !v.1 then ⟨none, some ("Invalid target Steam ID: " ++ v.2)⟩
  else
    let self_fl := get_friend_list selfListResp
    if !self_fl.1 then
      ⟨none, some ("Failed to get your friend list: " ++ self_fl.2.2)⟩
    else
      let their_fl := get_friend_list targetListResp
      if !their_fl.1 then
        ⟨none, some ("Failed to get target user's friend list: " ++ their_fl.2.2)⟩
      else
        let candidates :=
          get_mutual_friends_candidates self_id self_fl.2.1 their_fl.2.1
        if candidates.isEmpty then ⟨some Counters.zero, none⟩
        else ⟨some (addFriendsLoop oracle candidates), none⟩

/- ## RateLimiter: `_rate_limit_check` on a synthetic clock

The single-thread temporal behaviour is made explicit: `clock` is the
real time at which the thread is able to issue the next call, `times`
is the `request_times` window, and `admits` records the real instant at
which each call actually proceeded past the limiter. -/

def maxRequestsPerMinute : Nat := 30

structure RLState where
  times : List Int
  clock : Int
  admits : List Int
  blockedAny : Bool
deriving DecidableEq

def rlInit : RLState := ⟨[], 0, [], false⟩

/-- One `_rate_limit_check` call requested at real time `r` (the thread
cannot issue it before `clock`, hence `now = max clock r`): prune
entries 60s or older, and if the pruned window has reached the ceiling
wait out the remainder of the oldest entry's minute, clear the window
entirely, and record the (stale) pre-sleep timestamp. -/
def rateLimitStep (s : RLState) (r : Int) : RLState :=
  let now := max s.clock r
  let pruned := s.times.filter (fun t => now - t < 60)
  if maxRequestsPerMinute ≤ pruned.length then
    let wait := 60 - (now - pruned.headD 0)
    if 0 < wait then
      ⟨[now], now + wait, s.admits ++ [now + wait], true⟩
    else
      ⟨pruned ++ [now], now, s.admits ++ [now], s.blockedAny⟩
  else
    ⟨pruned ++ [now], now, s.admits ++ [now], s.blockedAny⟩

def runCalls (s : RLState) : List Int → RLState
  | [] => s
  | r :: rs => runCalls (rateLimitStep s r) rs

/-- Number of admitted calls falling inside the 61-second real-time
window starting at `w`. -/
def admitCount (admits : List Int) (w : Int) : Nat :=
  (admits.filter (fun t => w ≤ t && t < w + 61)).length

/-- Claim C3 as stated: every sequence of 30 or more calls issued
within less than 60 seconds blocks at least once, and no 61-second
window observes more than 30 admitted calls. -/
def claimC3 : Prop :=
  ∀ (a : Int) (reqs : List Int), 0 ≤ a →
    (∀ r ∈ reqs, a ≤ r ∧ r < a + 60) →
    30 ≤ reqs.length →
    (runCalls rlInit reqs).blockedAny = true ∧
    ∀ w, admitCount (runCalls rlInit reqs).admits w ≤ 30

/-- Claim C8's first conjunct as stated: on disjoint lists the
candidate selection returns the target list unchanged. -/
def claimC8disjoint : Prop :=
  ∀ (self_id : String) (selfL targetL : List String),
    (∀ x ∈ selfL, x ∉ targetL) →
    get_mutual_friends_candidates self_id selfL targetL = targetL

set_option maxRecDepth 100000

/- ## Helper lemmas -/

theorem pyContainsSub_append_left (p s : String) :
    pyContainsSub (p ++ s) p = true := by
  unfold pyContainsSub
  rw [List.any_eq_true]
  refine ⟨0, List.mem_range.mpr (Nat.succ_pos _), ?_⟩
  rw [List.drop_zero, String.data_append, List.isPrefixOf_iff_prefix]
  exact List.prefix_append _ _

theorem pyContainsSub_validation (m : String) :
    pyContainsSub ("Validation failed: " ++ m) "Validation failed" = true := by
  have h : ("Validation failed: " : String) ++ m =
      "Validation failed" ++ (": " ++ m) := by
    rw [← String.append_assoc]
    rfl
  rw [h]
  exact pyContainsSub_append_left _ _

theorem send_friend_request_msg (t : String) (lk : HttpResult SummaryBody)
    (h : (send_friend_request t lk).1 = false) :
    pyContainsSub (send_friend_request t lk).2 "Validation failed" = true := by
  unfold send_friend_request at h ⊢
  cases hv : (validate_steam_id t lk).1.1 with
  | true => simp [hv] at h
  | false =>
    simp only [hv, Bool.false_eq_true, if_false]
    exact pyContainsSub_validation _

theorem classifyItem_failed_eq (c : Counters) (r : Bool × String)
    (h : r.1 = false → pyContainsSub r.2 "Validation failed" = true) :
    (classifyItem c r).failed = c.failed := by
  unfold classifyItem
  cases hr : r.1 with
  | true => simp [hr]
  | false => simp [hr, h hr]

theorem processLine_failed (oracle : String → HttpResult SummaryBody)
    (c : Counters) (line : String) :
    (processLine oracle c line).failed = c.failed := by
  simp only [processLine]
  split
  · rfl
  · exact classifyItem_failed_eq _ _ (send_friend_request_msg _ _)

theorem addFriendStep_failed (oracle : String → HttpResult SummaryBody)
    (c : Counters) (fid : String) :
    (addFriendStep oracle c fid).failed = c.failed :=
  classifyItem_failed_eq _ _ (send_friend_request_msg _ _)

theorem foldl_addFriendStep_failed (oracle : String → HttpResult SummaryBody) :
    ∀ (ids : List String) (c : Counters),
      (ids.foldl (addFriendStep oracle) c).failed = c.failed := by
  intro ids
  induction ids with
  | nil => intro c; rfl
  | cons i is ih =>
    intro c
    rw [List.foldl_cons, ih]
    exact addFriendStep_failed oracle c i

/-- Claim C1: the spec says transport-level validation outcomes
(AuthError, RateLimited, NetworkError, UnexpectedResponse) increment
the `failed` counter.  The code does not: `send_friend_request`
prefixes every failure message with "Validation failed: ", so the
batch loops' substring test classifies every failure as `invalid` and
the `failed` branch is unreachable.  At the failing input (a
well-formed 17-digit id whose lookup times out, a NetworkError
outcome) the item is counted as `invalid`, and `failed` is never
incremented by either loop. -/
theorem c1_failed_branch_unreachable :
    processLine (fun _ => HttpResult.timeout) Counters.zero "76561198000000000" =
      ⟨1, 0, 0, 1, 0⟩ ∧
    (∀ (oracle : String → HttpResult SummaryBody) (c : Counters) (line : String),
      (processLine oracle c line).failed = c.failed) ∧
    (∀ (oracle : String → HttpResult SummaryBody) (ids : List String),
      (addFriendsLoop oracle ids).failed = 0) := by
  refine ⟨by decide, fun o c l => processLine_failed o c l, fun o ids => ?_⟩
  unfold addFriendsLoop
  rw [foldl_addFriendStep_failed]
  rfl

/-- Claim C2: the candidate computation of `get_mutual_friends` is
exactly the order-preserving subsequence of the target list whose
elements are neither members of the self list nor equal to `self_id`. -/
theorem c2_candidate_selection :
    ∀ (self_id : String) (selfL targetL : List String),
      get_mutual_friends_candidates self_id selfL targetL =
        specCandidates self_id selfL targetL ∧
      List.Sublist (get_mutual_friends_candidates self_id selfL targetL) targetL ∧
      (∀ x, x ∈ get_mutual_friends_candidates self_id selfL targetL ↔
        (x ∈ targetL ∧ x ∉ selfL ∧ x ≠ self_id)) := by
  intro self_id selfL targetL
  have hpred : ∀ x : String,
      (!(selfL.contains x) && x != self_id) = decide (x ∉ selfL ∧ x ≠ self_id) := by
    intro x
    by_cases h1 : x ∈ selfL <;> by_cases h2 : x = self_id <;>
      simp [h1, h2, List.contains]
  refine ⟨List.filter_congr (fun x _ => hpred x), List.filter_sublist _, fun x => ?_⟩
  simp only [get_mutual_friends_candidates, List.mem_filter, hpred x,
    decide_eq_true_eq]

/-- Claim C8 counterexample: the claim as stated fails because the
filter also removes `self_id` itself, so on disjoint lists where
`self_id` occurs in the target list the output is not the full target
list. -/
theorem c8_counterexample : ¬ claimC8disjoint := by
  intro h
  have h1 := h "a" [] ["a"] (by intro x hx; cases hx)
  have h2 : get_mutual_friends_candidates "a" [] ["a"] = [] := by decide
  rw [h2] at h1
  cases h1

/-- Claim C8 (amended): on disjoint lists the output is the target list
with occurrences of `self_id` removed (hence the full target list
whenever `self_id` does not occur in it), order preserved;
membership-identical lists give an empty output; and an empty candidate
list makes `add_mutual_friends` return the zero-counter success result
with no error field. -/
theorem c8_amended :
    (∀ (self_id : String) (selfL targetL : List String),
      (∀ x ∈ selfL, x ∉ targetL) →
      get_mutual_friends_candidates self_id selfL targetL =
        targetL.filter (fun id => id != self_id)) ∧
    (∀ (self_id : String) (selfL targetL : List String),
      (∀ x, x ∈ selfL ↔ x ∈ targetL) →
      get_mutual_friends_candidates self_id selfL targetL = []) ∧
    (∀ (self_id target_id : String) (sIds tIds : List String)
      (vlk : HttpResult SummaryBody) (oracle : String → HttpResult SummaryBody),
      (validate_steam_id target_id vlk).1.1 = true →
      get_mutual_friends_candidates self_id sIds tIds = [] →
      add_mutual_friends self_id target_id vlk
        (.response 200 (.friends sIds)) (.response 200 (.friends tIds)) oracle =
        ⟨some Counters.zero, none⟩) := by
  refine ⟨?_, ?_, ?_⟩
  · intro self_id selfL targetL hdisj
    apply List.filter_congr
    intro x hx
    have hnotin : x ∉ selfL := fun hmem => hdisj x hmem hx
    simp [hnotin, List.contains]
  · intro self_id selfL targetL hiff
    apply List.filter_eq_nil_iff.mpr
    intro x hx
    have hmem : x ∈ selfL := (hiff x).mpr hx
    simp [hmem, List.contains]
  · intro self_id target_id sIds tIds vlk oracle hv hempty
    have h1 : get_friend_list (.response 200 (.friends sIds)) = (true, sIds, "") := rfl
    have h2 : get_friend_list (.response 200 (.friends tIds)) = (true, tIds, "") := rfl
    simp [add_mutual_friends, h1, h2, hv, hempty]

theorem c8_amended_witness :
    add_mutual_friends "a" "76561198000000000" (.response 200 (.players 1))
      (.response 200 (.friends ["b"])) (.response 200 (.friends ["b"]))
      (fun _ => HttpResult.timeout) = ⟨some Counters.zero, none⟩ :=
  c8_amended.2.2 "a" "76561198000000000" ["b"] ["b"] (.response 200 (.players 1))
    (fun _ => HttpResult.timeout) (by decide) (by decide)

/-- Shared helper: a string whose stripped form is all digits of length
17 passes the format check, and `validate_steam_id` then returns the
lookup classification together with the stripped id it queried. -/
theorem validate_formatValid (s : String) (hd : pyIsDigits (pyStrip s) = true)
    (hl : pyLen (pyStrip s) = 17) (lk : HttpResult SummaryBody) :
    validate_steam_id s lk = (classifyLookup lk, some (pyStrip s)) := by
  have hne : (pyStrip s).data.isEmpty = false := by
    cases hdata : (pyStrip s).data with
    | nil =>
      unfold pyLen at hl
      rw [hdata] at hl
      cases hl
    | cons a l => rfl
  have hfmt : validateFormatMsg (pyStrip s) = none := by
    simp [validateFormatMsg, hne, hd, hl]
  simp [validate_steam_id, hfmt]

/-- Claim C4: a string whose stripped form is empty, non-numeric, or
not 17 characters long gets the corresponding InvalidFormat message
from `validate_steam_id` (in the code's precedence order), and no
network lookup happens (the queried-id component is `none`). -/
theorem c4_format_short_circuit :
    ∀ (s : String) (lk : HttpResult SummaryBody),
      ((pyStrip s).data.isEmpty = true →
        validate_steam_id s lk = ((false, "Empty Steam ID"), none)) ∧
      ((pyStrip s).data.isEmpty = false → pyIsDigits (pyStrip s) = false →
        validate_steam_id s lk = ((false, "Steam ID must be numeric"), none)) ∧
      ((pyStrip s).data.isEmpty = false → pyIsDigits (pyStrip s) = true →
        pyLen (pyStrip s) ≠ 17 →
        validate_steam_id s lk =
          ((false, "Steam ID must be 17 digits (got " ++
              toString (pyLen (pyStrip s)) ++ ")"), none)) := by
  intro s lk
  refine ⟨?_, ?_, ?_⟩
  · intro h1
    simp [validate_steam_id, validateFormatMsg, h1]
  · intro h1 h2
    simp [validate_steam_id, validateFormatMsg, h1, h2]
  · intro h1 h2 h3
    simp [validate_steam_id, validateFormatMsg, h1, h2, h3]

theorem c4_format_short_circuit_witness :
    validate_steam_id "123" HttpResult.timeout =
      ((false, "Steam ID must be 17 digits (got 3)"), none) :=
  (c4_format_short_circuit "123" HttpResult.timeout).2.2 (by decide) (by decide)
    (by decide)

/-- Claim C5: for a format-valid input, `validate_steam_id` maps the
lookup outcome exactly as the code's cascade does: 403 to the auth
failure, 429 to the rate-limit failure, any other non-200 status to the
API-error message carrying the status code, timeout and transport
failures to the network messages, and on 200 the body shape decides
between malformed, not-found (empty players array) and valid. -/
theorem c5_lookup_mapping :
    ∀ (s : String), pyIsDigits (pyStrip s) = true → pyLen (pyStrip s) = 17 →
      (∀ body, validate_steam_id s (.response 403 body) =
        ((false, "Invalid API key or insufficient permissions"), some (pyStrip s))) ∧
      (∀ body, validate_steam_id s (.response 429 body) =
        ((false, "Rate limited by Steam API"), some (pyStrip s))) ∧
      (∀ (st : Nat) (body : SummaryBody), st ≠ 403 → st ≠ 429 → st ≠ 200 →
        validate_steam_id s (.response st body) =
          ((false, "API error (status code: " ++ toString st ++ ")"), some (pyStrip s))) ∧
      (validate_steam_id s HttpResult.timeout =
        ((false, "Request timeout"), some (pyStrip s))) ∧
      (∀ e, validate_steam_id s (.reqError e) =
        ((false, "Network error: " ++ e), some (pyStrip s))) ∧
      (validate_steam_id s (.response 200 .malformed) =
        ((false, "Unexpected API response format"), some (pyStrip s))) ∧
      (validate_steam_id s (.response 200 (.players 0)) =
        ((false, "Steam ID not found"), some (pyStrip s))) ∧
      (∀ n, 0 < n → validate_steam_id s (.response 200 (.players n)) =
        ((true, "Valid"), some (pyStrip s))) := by
  intro s hd hl
  refine ⟨fun body => ?_, fun body => ?_, fun st body h1 h2 h3 => ?_, ?_,
    fun e => ?_, ?_, ?_, fun n hn => ?_⟩ <;>
    rw [validate_formatValid s hd hl]
  · rfl
  · rfl
  · simp [classifyLookup, h1, h2, h3]
  · rfl
  · rfl
  · rfl
  · rfl
  · simp [classifyLookup, hn]

theorem c5_lookup_mapping_witness :
    validate_steam_id "76561198000000000" (.response 429 .malformed) =
      ((false, "Rate limited by Steam API"), some "76561198000000000") :=
  (c5_lookup_mapping "76561198000000000" (by decide) (by decide)).2.1
    SummaryBody.malformed

/-- Claim C6: the two endpoints disagree on status-code semantics and
the code preserves the asymmetry: `get_friend_list` maps 401 to the
auth failure and 403 to the private-or-not-found failure for every
body, while `validate_steam_id` maps 403 to the auth failure for every
format-valid id and every body. -/
theorem c6_status_asymmetry :
    (∀ body, get_friend_list (.response 401 body) =
      (false, [], "Invalid API key")) ∧
    (∀ body, get_friend_list (.response 403 body) =
      (false, [], "Friend list is private or user not found")) ∧
    (∀ (s : String) (body : SummaryBody),
      pyIsDigits (pyStrip s) = true → pyLen (pyStrip s) = 17 →
      validate_steam_id s (.response 403 body) =
        ((false, "Invalid API key or insufficient permissions"), some (pyStrip s))) := by
  refine ⟨fun body => rfl, fun body => rfl, fun s body hd hl => ?_⟩
  rw [validate_formatValid s hd hl]
  rfl

theorem c6_status_asymmetry_witness :
    validate_steam_id "76561198000000001" (.response 403 SummaryBody.malformed) =
      ((false, "Invalid API key or insufficient permissions"),
        some "76561198000000001") :=
  c6_status_asymmetry.2.2 "76561198000000001" SummaryBody.malformed (by decide)
    (by decide)

/-- Claim C10: `validate_steam_id` strips its argument before any
check: the validation outcome depends only on the stripped form, a
17-digit identifier surrounded by whitespace passes the format check
and is looked up in its stripped form, and a whitespace-only string is
classified as the empty-identifier case, not as non-numeric. -/
theorem c10_strip_behavior :
    (∀ (s : String) (lk : HttpResult SummaryBody), pyStrip s = "" →
      validate_steam_id s lk = ((false, "Empty Steam ID"), none)) ∧
    (∀ (s : String) (lk : HttpResult SummaryBody),
      pyIsDigits (pyStrip s) = true → pyLen (pyStrip s) = 17 →
      validate_steam_id s lk = (classifyLookup lk, some (pyStrip s))) ∧
    (∀ lk, validate_steam_id " 76561198012345678\t " lk =
      (classifyLookup lk, some "76561198012345678")) ∧
    (∀ lk, validate_steam_id " \t  " lk = ((false, "Empty Steam ID"), none)) := by
  refine ⟨?_, ?_, ?_, ?_⟩
  · intro s lk h
    simp [validate_steam_id, validateFormatMsg, h]
  · intro s lk hd hl
    exact validate_formatValid s hd hl lk
  · intro lk
    have h : pyStrip " 76561198012345678\t " = "76561198012345678" := by decide
    rw [validate_formatValid _ (by decide) (by decide) lk, h]
  · intro lk
    have h : pyStrip " \t  " = "" := by decide
    simp [validate_steam_id, validateFormatMsg, h]

theorem c10_strip_behavior_witness :
    validate_steam_id "  76561198999999999 " HttpResult.timeout =
      ((false, "Request timeout"), some "76561198999999999") :=
  c10_strip_behavior.2.1 "  76561198999999999 " HttpResult.timeout (by decide)
    (by decide)

/-- Claim C7: a fatal read error never escapes `process_steam_ids_file`
as an exception: a missing file yields the counter-less error result, a
read failure before the loop yields the zero counters plus the error
field, a fatal error after processing the lines `ls` yields the
counters accumulated over `ls` plus the error field, and a successful
run has no error field. -/
theorem c7_fatal_read_error :
    ∀ (oracle : String → HttpResult SummaryBody) (msg : String) (ls : List String),
      process_steam_ids_file FileSource.missing oracle =
        ⟨none, some "File not found"⟩ ∧
      process_steam_ids_file (FileSource.readError msg) oracle =
        ⟨some Counters.zero, some msg⟩ ∧
      process_steam_ids_file (FileSource.linesThenError ls msg) oracle =
        ⟨some (processLines oracle ls), some msg⟩ ∧
      (process_steam_ids_file (FileSource.lines ls) oracle).error = none := by
  intro oracle msg ls
  exact ⟨rfl, rfl, rfl, rfl⟩

theorem classifyItem_cases (c : Counters) (r : Bool × String) :
    classifyItem c r = { c with success := c.success + 1 } ∨
    classifyItem c r = { c with invalid := c.invalid + 1 } ∨
    classifyItem c r = { c with failed := c.failed + 1 } := by
  unfold classifyItem
  split
  · exact Or.inl rfl
  · split
    · exact Or.inr (Or.inl rfl)
    · exact Or.inr (Or.inr rfl)

theorem processLine_cases (oracle : String → HttpResult SummaryBody)
    (c : Counters) (line : String) :
    processLine oracle c line = { c with skipped := c.skipped + 1 } ∨
    ∃ r, processLine oracle c line =
      classifyItem { c with total := c.total + 1 } r := by
  simp only [processLine]
  split
  · exact Or.inl rfl
  · exact Or.inr ⟨_, rfl⟩

theorem processLine_inv (oracle : String → HttpResult SummaryBody)
    (c : Counters) (line : String)
    (h : c.total = c.success + c.failed + c.invalid) :
    (processLine oracle c line).total =
      (processLine oracle c line).success + (processLine oracle c line).failed +
        (processLine oracle c line).invalid := by
  rcases processLine_cases oracle c line with h1 | ⟨r, h1⟩ <;> rw [h1]
  · exact h
  · rcases classifyItem_cases { c with total := c.total + 1 } r with h2 | h2 | h2 <;>
      rw [h2] <;> dsimp only <;> omega

theorem processLine_count (oracle : String → HttpResult SummaryBody)
    (c : Counters) (line : String) :
    (processLine oracle c line).total + (processLine oracle c line).skipped =
      c.total + c.skipped + 1 := by
  rcases processLine_cases oracle c line with h1 | ⟨r, h1⟩ <;> rw [h1]
  · dsimp only; omega
  · rcases classifyItem_cases { c with total := c.total + 1 } r with h2 | h2 | h2 <;>
      rw [h2] <;> dsimp only <;> omega

theorem foldl_processLine_inv (oracle : String → HttpResult SummaryBody) :
    ∀ (ls : List String) (c : Counters),
      c.total = c.success + c.failed + c.invalid →
      (ls.foldl (processLine oracle) c).total =
        (ls.foldl (processLine oracle) c).success +
          (ls.foldl (processLine oracle) c).failed +
          (ls.foldl (processLine oracle) c).invalid := by
  intro ls
  induction ls with
  | nil => intro c h; exact h
  | cons l ls ih =>
    intro c h
    rw [List.foldl_cons]
    exact ih _ (processLine_inv oracle c l h)

theorem foldl_processLine_count (oracle : String → HttpResult SummaryBody) :
    ∀ (ls : List String) (c : Counters),
      (ls.foldl (processLine oracle) c).total +
        (ls.foldl (processLine oracle) c).skipped =
        c.total + c.skipped + ls.length := by
  intro ls
  induction ls with
  | nil => intro c; simp
  | cons l ls ih =>
    intro c
    rw [List.foldl_cons, List.length_cons]
    have h1 := ih (processLine oracle c l)
    have h2 := processLine_count oracle c l
    omega

theorem addFriendStep_counts (oracle : String → HttpResult SummaryBody)
    (c : Counters) (fid : String) :
    (addFriendStep oracle c fid).total = c.total + 1 ∧
    (addFriendStep oracle c fid).skipped = c.skipped ∧
    (addFriendStep oracle c fid).success + (addFriendStep oracle c fid).failed +
        (addFriendStep oracle c fid).invalid =
      c.success + c.failed + c.invalid + 1 := by
  unfold addFriendStep
  rcases classifyItem_cases { c with total := c.total + 1 }
      (send_friend_request fid (oracle fid)) with h | h | h <;>
    rw [h] <;> dsimp only <;> exact ⟨rfl, rfl, by omega⟩

theorem foldl_addFriendStep_counts (oracle : String → HttpResult SummaryBody) :
    ∀ (ids : List String) (c : Counters),
      (ids.foldl (addFriendStep oracle) c).total = c.total + ids.length ∧
      (ids.foldl (addFriendStep oracle) c).skipped = c.skipped ∧
      (ids.foldl (addFriendStep oracle) c).success +
          (ids.foldl (addFriendStep oracle) c).failed +
          (ids.foldl (addFriendStep oracle) c).invalid =
        c.success + c.failed + c.invalid + ids.length := by
  intro ids
  induction ids with
  | nil => intro c; exact ⟨rfl, rfl, rfl⟩
  | cons i is ih =>
    intro c
    rw [List.foldl_cons, List.length_cons]
    have h1 := ih (addFriendStep oracle c i)
    have h2 := addFriendStep_counts oracle c i
    exact ⟨by omega, by omega, by omega⟩

/-- Claim C9: in both batch loops the invariant
total = success + failed + invalid holds after any processed prefix
(every prefix of the input is itself an input), each line either skips
(only the `skipped` counter moves) or bumps `total` and exactly one of
the three outcome counters (so total + skipped equals the number of
lines), and the candidate loop skips nothing. -/
theorem c9_counter_invariant :
    ∀ (oracle : String → HttpResult SummaryBody) (ls ids : List String),
      ((processLines oracle ls).total =
        (processLines oracle ls).success + (processLines oracle ls).failed +
          (processLines oracle ls).invalid) ∧
      ((processLines oracle ls).total + (processLines oracle ls).skipped =
        ls.length) ∧
      ((addFriendsLoop oracle ids).total =
        (addFriendsLoop oracle ids).success + (addFriendsLoop oracle ids).failed +
          (addFriendsLoop oracle ids).invalid) ∧
      ((addFriendsLoop oracle ids).total = ids.length) ∧
      ((addFriendsLoop oracle ids).skipped = 0) ∧
      (∀ (c : Counters) (line : String),
        ((pyStrip line).data.isEmpty || pyStartsWith (pyStrip line) "#") = true →
        processLine oracle c line = { c with skipped := c.skipped + 1 }) := by
  intro oracle ls ids
  have hadd := foldl_addFriendStep_counts oracle ids Counters.zero
  have hz0 : Counters.zero.total = 0 := rfl
  have hz1 : Counters.zero.success = 0 := rfl
  have hz2 : Counters.zero.failed = 0 := rfl
  have hz3 : Counters.zero.invalid = 0 := rfl
  have hz4 : Counters.zero.skipped = 0 := rfl
  refine ⟨foldl_processLine_inv oracle ls Counters.zero rfl, ?_, ?_, ?_, ?_, ?_⟩
  · have := foldl_processLine_count oracle ls Counters.zero
    unfold processLines
    omega
  · unfold addFriendsLoop
    omega
  · unfold addFriendsLoop
    omega
  · unfold addFriendsLoop
    omega
  · intro c line h
    simp only [processLine]
    rw [if_pos h]

theorem c9_counter_invariant_witness :
    processLine (fun _ => HttpResult.timeout) Counters.zero "# comment" =
      ⟨0, 0, 0, 0, 1⟩ :=
  (c9_counter_invariant (fun _ => HttpResult.timeout) [] []).2.2.2.2.2
    Counters.zero "# comment" (by decide)

theorem rateLimitStep_blocked (s : RLState) (r : Int) (h : s.blockedAny = true) :
    (rateLimitStep s r).blockedAny = true := by
  simp only [rateLimitStep]
  split
  · split
    · rfl
    · exact h
  · exact h

theorem runCalls_blocked_mono :
    ∀ (rs : List Int) (s : RLState), s.blockedAny = true →
      (runCalls s rs).blockedAny = true := by
  intro rs
  induction rs with
  | nil => intro s h; exact h
  | cons r rs ih => intro s h; exact ih _ (rateLimitStep_blocked s r h)

theorem rateLimitStep_under (s : RLState) (r : Int)
    (hkeep : ∀ t ∈ s.times, (max s.clock r) - t < 60)
    (hlen : s.times.length < maxRequestsPerMinute) :
    rateLimitStep s r =
      ⟨s.times ++ [max s.clock r], max s.clock r,
        s.admits ++ [max s.clock r], s.blockedAny⟩ := by
  have hfilter : s.times.filter (fun t => decide ((max s.clock r) - t < 60)) = s.times :=
    List.filter_eq_self.mpr (fun t ht => decide_eq_true (hkeep t ht))
  simp only [rateLimitStep, hfilter]
  rw [if_neg (by omega)]

theorem rateLimitStep_atCap (s : RLState) (r : Int)
    (hkeep : ∀ t ∈ s.times, (max s.clock r) - t < 60)
    (hlen : maxRequestsPerMinute ≤ s.times.length)
    (hwait : 0 < 60 - (max s.clock r - s.times.headD 0)) :
    (rateLimitStep s r).blockedAny = true := by
  have hfilter : s.times.filter (fun t => decide ((max s.clock r) - t < 60)) = s.times :=
    List.filter_eq_self.mpr (fun t ht => decide_eq_true (hkeep t ht))
  simp only [rateLimitStep, hfilter]
  rw [if_pos hlen, if_pos hwait]

/-- If all of the state's window entries and all requested call times
lie inside one sub-60-second interval, the window never loses an entry
to pruning, so once more than `maxRequestsPerMinute` calls have been
issued in the interval some call finds a full window and blocks. -/
theorem runCalls_blocks_aux (a : Int) :
    ∀ (reqs : List Int) (s : RLState),
      (∀ r ∈ reqs, a ≤ r ∧ r < a + 60) →
      (∀ t ∈ s.times, a ≤ t ∧ t < a + 60) →
      s.clock < a + 60 →
      s.times.length ≤ maxRequestsPerMinute →
      maxRequestsPerMinute + 1 ≤ s.times.length + reqs.length →
      (runCalls s reqs).blockedAny = true := by
  intro reqs
  induction reqs with
  | nil =>
    intro s _ _ _ hlen hbud
    simp only [List.length_nil] at hbud
    omega
  | cons r rs ih =>
    intro s hreq htimes hclock hlen hbud
    have hr := hreq r (List.mem_cons_self r rs)
    have hnow_lt : max s.clock r < a + 60 := max_lt hclock hr.2
    have hkeep : ∀ t ∈ s.times, (max s.clock r) - t < 60 := by
      intro t ht
      have := htimes t ht
      omega
    simp only [runCalls]
    by_cases hcap : maxRequestsPerMinute ≤ s.times.length
    · have hmem : s.times.headD 0 ∈ s.times := by
        cases hts : s.times with
        | nil =>
          rw [hts] at hcap
          simp only [List.length_nil, maxRequestsPerMinute] at hcap
          omega
        | cons t0 ts => simp
      have ht0 := htimes _ hmem
      have hwait : 0 < 60 - (max s.clock r - s.times.headD 0) := by omega
      exact runCalls_blocked_mono rs _ (rateLimitStep_atCap s r hkeep hcap hwait)
    · push_neg at hcap
      rw [rateLimitStep_under s r hkeep hcap]
      apply ih
      · intro x hx
        exact hreq x (List.mem_cons_of_mem _ hx)
      · intro t ht
        rcases List.mem_append.mp ht with h | h
        · exact htimes t h
        · rw [List.mem_singleton] at h
          subst h
          exact ⟨le_trans hr.1 (le_max_right _ _), hnow_lt⟩
      · exact hnow_lt
      · simp only [List.length_append, List.length_singleton]
        omega
      · simp only [List.length_append, List.length_singleton]
        simp only [List.length_cons] at hbud
        omega

/-- Claim C3 counterexample: the claim as stated is false on the code.
Thirty calls at one instant (30 calls within less than 60 seconds)
block nobody, because the ceiling test `len >= 30` runs before the
current call is appended; and forty calls at one instant are all
admitted within the 61-second window starting at 0, because after the
forced wait the window is cleared entirely. -/
theorem c3_counterexample :
    ¬ claimC3 ∧
    (runCalls rlInit (List.replicate 30 0)).blockedAny = false ∧
    30 < admitCount (runCalls rlInit (List.replicate 40 0)).admits 0 := by
  refine ⟨?_, by decide, by decide⟩
  intro h
  have h30 := h 0 (List.replicate 30 0) le_rfl ?_ ?_
  · have hfalse : (runCalls rlInit (List.replicate 30 0)).blockedAny = false := by
      decide
    rw [hfalse] at h30
    exact Bool.noConfusion h30.1
  · intro r hr
    have : r = 0 := List.eq_of_mem_replicate hr
    subst this
    exact ⟨le_rfl, by omega⟩
  · simp

/-- Claim C3 (amended): a sequence of exactly 30 calls within less than
60 seconds never blocks; at least 31 calls issued within an interval of
less than 60 seconds force at least one call to block; and because the
window is cleared entirely after a forced wait, a 61-second window can
observe more than 30 admitted calls (40 calls at one instant all land
in one window). -/
theorem c3_amended :
    (∀ (a : Int) (reqs : List Int), 0 ≤ a →
      (∀ r ∈ reqs, a ≤ r ∧ r < a + 60) →
      31 ≤ reqs.length →
      (runCalls rlInit reqs).blockedAny = true) ∧
    (runCalls rlInit (List.replicate 30 0)).blockedAny = false ∧
    30 < admitCount (runCalls rlInit (List.replicate 40 0)).admits 0 := by
  refine ⟨?_, by decide, by decide⟩
  intro a reqs ha hin hlen
  apply runCalls_blocks_aux a reqs rlInit hin
  · intro t ht
    exact absurd ht (List.not_mem_nil t)
  · show (0 : Int) < a + 60
    omega
  · show (List.length ([] : List Int)) ≤ maxRequestsPerMinute
    simp
  · show maxRequestsPerMinute + 1 ≤ (List.length ([] : List Int)) + reqs.length
    simp only [List.length_nil, maxRequestsPerMinute]
    omega

theorem c3_amended_witness :
    (runCalls rlInit (List.replicate 31 0)).blockedAny = true :=
  c3_amended.1 0 (List.replicate 31 0) le_rfl
    (by
      intro r hr
      have : r = 0 := List.eq_of_mem_replicate hr
      subst this
      exact ⟨le_rfl, by omega⟩)
    (by simp)
